import Mathlib

/-!
Shallow embedding of `src/examples/gpu.rs` (the glazier GPU example).

The example binds a wgpu surface to a glazier window.  We embed:

* `size_px` (gpu.rs lines 300 to 308): computes the physical pixel size of a
  window from its logical size and display scale, asserting both dimensions
  are positive.  An assertion failure (a Rust panic) is modelled as `none`.
* `GpuState` (gpu.rs lines 226 to 298) with `GpuState.new` and
  `GpuState.resize`.
* `HelloState` (gpu.rs lines 27 to 178) with the window-system callbacks
  `size`, `paint` and `mouse_down`, and the shared `gpu_state` slot
  (an `Arc<Mutex<Option<GpuState>>>`, modelled as `Option GpuState` since
  every access in the source holds the lock for its whole duration and the
  callbacks run one at a time).

Calls into the GPU driver (surface configuration, texture acquisition,
render-pass recording, queue submission, presentation) are recorded as a
trace of `GpuOp` values, so that claims about which driver calls happen and
in which order can be stated.  A Rust panic (a failed `assert!`, an
`unwrap` of `None` or of `Err`, or an out-of-bounds index) is modelled by
the embedded function returning `none`; `some` means the Rust code returns
normally.
-/

/-- Logical size in display points, mirroring `kurbo::Size` (two `f64`
fields, modelled as rationals). -/
structure Size where
  width : ℚ
  height : ℚ
deriving DecidableEq, Repr

/-- Model of `glazier::WindowHandle` as consumed by gpu.rs: it provides the
current logical size (`get_size`) and the display scale factor
(`get_scale`).  The scale is one factor applied to both axes. -/
structure WindowHandle where
  logicalSize : Size
  scale : ℚ
deriving DecidableEq, Repr

/-- Modelled from the spec: `Scale::dp_to_px_xy` is glazier library code
that is not present under `src/`; the spec states
`physicalWidth = round(logicalWidth * scale)` and the same for the height,
so the conversion from display points to physical pixels is rounding
multiplication. -/
def dp_to_px_xy (scale : ℚ) (w h : ℚ) : ℤ × ℤ :=
  (round (w * scale), round (h * scale))

/-- Embedding of `size_px` (gpu.rs lines 300 to 308): reads the logical
size and scale of the window, converts to physical pixels, casts to `u32`
(`Int.toNat` matches the saturating-at-zero behaviour of `as u32` on the
values in scope), and asserts both dimensions are positive.  `none` models
the panic of a failed `assert!`. -/
def size_px (handle : WindowHandle) : Option (Nat × Nat) :=
  let p := dp_to_px_xy handle.scale handle.logicalSize.width handle.logicalSize.height
  let width := p.1.toNat
  let height := p.2.toNat
  if 0 < width ∧ 0 < height then some (width, height) else none

/-- The `wgpu::TextureUsages` value used by the example. -/
inductive TextureUsage where
  | renderAttachment
deriving DecidableEq, Repr

/-- The `wgpu::PresentMode` values relevant to the example. -/
inductive PresentMode where
  | fifo
  | immediate
  | mailbox
deriving DecidableEq, Repr

/-- The `wgpu::CompositeAlphaMode` value used by the example. -/
inductive AlphaMode where
  | auto
deriving DecidableEq, Repr

/-- Surface formats are opaque identifiers; the adapter reports a list of
them and the example indexes into that list. -/
abbrev TextureFormat := Nat

/-- Embedding of `wgpu::SurfaceConfiguration` with exactly the fields the
example constructs (gpu.rs lines 266 to 273). -/
structure SurfaceConfiguration where
  usage : TextureUsage
  format : TextureFormat
  width : Nat
  height : Nat
  presentMode : PresentMode
  alphaMode : AlphaMode
deriving DecidableEq, Repr

/-- Load operation of a render-pass color attachment: the example uses
`LoadOp::Clear` with a fixed color (gpu.rs lines 162 to 167). -/
inductive LoadOp where
  | clear (r g b a : ℚ)
  | load
deriving DecidableEq, Repr

/-- Driver-level GPU calls recorded as a trace.  `configure` is
`surface.configure`, `getCurrentTexture` is a successful
`surface.get_current_texture`, `beginRenderPass` records the load and
store operations of the single color attachment, `submit` is
`queue.submit`, `present` is `output.present()`. -/
inductive GpuOp where
  | configure (config : SurfaceConfiguration)
  | getCurrentTexture
  | createView
  | beginRenderPass (loadOp : LoadOp) (store : Bool)
  | submit
  | present
deriving DecidableEq, Repr

/-- Result value of `GpuState::resize`, mirroring the Rust type
`Result<(), Box<dyn std::error::Error>>`. -/
inductive RustResult where
  | ok
  | err
deriving DecidableEq, Repr

/-- Model of one GPU adapter: the list of surface formats it reports as
supported (`surface.get_supported_formats(&adapter)`), in order. -/
structure Adapter where
  supportedFormats : List TextureFormat
deriving Repr

/-- Embedding of the `GpuState` struct (gpu.rs lines 226 to 233).
`surface`, `device` and `queue` are opaque driver handles, modelled as
identifiers so that claims about fields being unchanged can be stated. -/
structure GpuState where
  handle : WindowHandle
  surface : Nat
  device : Nat
  queue : Nat
  config : SurfaceConfiguration
  size : Nat × Nat
deriving DecidableEq, Repr

/-- Embedding of `GpuState::new` (gpu.rs lines 236 to 284).  The
asynchronous adapter and device negotiation is modelled by passing in the
adapter that `request_adapter` resolved to and the opaque handles of the
created surface, device and queue.  `none` models a panic: the `assert!`
inside `size_px`, or the out-of-bounds index `[0]` when the adapter
reports no supported format.  On success it returns the constructed state
together with the trace of driver calls made (one `surface.configure`). -/
def GpuState.new (handle : WindowHandle) (adapter : Adapter)
    (sur dev que : Nat) : Option (GpuState × List GpuOp) :=
  (size_px handle).bind fun wh =>
    match adapter.supportedFormats with
    | [] => none
    | format :: _ =>
      let config : SurfaceConfiguration :=
        { usage := .renderAttachment
          format := format
          width := wh.1
          height := wh.2
          presentMode := .fifo
          alphaMode := .auto }
      some ({ handle := handle
              surface := sur
              device := dev
              queue := que
              config := config
              size := (wh.1, wh.2) }, [.configure config])

/-- Embedding of `GpuState::resize` (gpu.rs lines 286 to 297).  Recomputes
the physical size; if it equals the `size` field, returns `Ok(())` with no
driver call; otherwise updates `config.width` and `config.height`, calls
`surface.configure`, and returns `Ok(())`.  Note that the source never
writes the `size` field here.  `none` models the panic of the `assert!`
inside `size_px`; no path of the source builds an `Err` value. -/
def GpuState.resize (s : GpuState) :
    Option (RustResult × GpuState × List GpuOp) :=
  (size_px s.handle).bind fun wh =>
    if s.size = wh then
      some (.ok, s, [])
    else
      let config := { s.config with width := wh.1, height := wh.2 }
      some (.ok, { s with config := config }, [.configure config])

/-- Embedding of the `HelloState` struct (gpu.rs lines 27 to 32).  The
`Arc<Mutex<Option<GpuState>>>` slot is modelled as `Option GpuState`. -/
structure HelloState where
  size : Size
  handle : WindowHandle
  gpu_state : Option GpuState
deriving DecidableEq, Repr

/-- Embedding of `HelloState::render` (gpu.rs lines 140 to 177), the body
shared by the `paint` and `mouse_down` callbacks.  `texOk` models whether
`surface.get_current_texture()` succeeds.  Steps, in source order: compute
`size_px(&self.handle)` (panic if either dimension is zero — the result is
otherwise unused); lock the slot and `unwrap` its contents (panic if
`None`); acquire the surface texture and `unwrap` (panic if acquisition
fails); create a view; record one render pass whose single color
attachment clears to the fixed color `(0.1, 0.2, 0.3, 1.0)` with
`store: true`; submit the encoded commands; present the texture.  The
handler state is not mutated. -/
def HelloState.render (st : HelloState) (texOk : Bool) :
    Option (HelloState × List GpuOp) :=
  (size_px st.handle).bind fun _ =>
    st.gpu_state.bind fun _ =>
      if texOk then
        some (st, [.getCurrentTexture, .createView,
                   .beginRenderPass (.clear (1/10) (2/10) (3/10) 1) true,
                   .submit, .present])
      else none

/-- Embedding of the `size` callback of `impl WinHandler for HelloState`
(gpu.rs lines 39 to 43): logs, locks the slot, calls `unwrap` on its
contents (panic if `None`), calls `resize`, and calls `unwrap` on the
result (panic if `Err`).  The callback does not store the reported size
anywhere. -/
def HelloState.sizeCallback (st : HelloState) (_newSize : Size) :
    Option (HelloState × List GpuOp) :=
  st.gpu_state.bind fun g =>
    g.resize.bind fun out =>
      match out.1 with
      | .ok => some ({ st with gpu_state := some out.2.1 }, out.2.2)
      | .err => none

/-- Embedding of the `paint` callback (gpu.rs lines 49 to 51): it just
calls `self.render()`. -/
def HelloState.paint (st : HelloState) (texOk : Bool) :
    Option (HelloState × List GpuOp) :=
  st.render texOk

/-- Embedding of the `mouse_down` callback (gpu.rs lines 105 to 108):
logs, then calls `self.render()`. -/
def HelloState.mouseDown (st : HelloState) (texOk : Bool) :
    Option (HelloState × List GpuOp) :=
  st.render texOk

/-! Concrete fixtures used by counterexamples and witnesses. -/

/-- A window reporting logical size 1024 by 768 at scale 1. -/
def win1024 : WindowHandle := ⟨⟨1024, 768⟩, 1⟩

/-- A window reporting logical size 800 by 600 at scale 1. -/
def win800 : WindowHandle := ⟨⟨800, 600⟩, 1⟩

/-- A window reporting logical size 0 by 0 at scale 1. -/
def winZero : WindowHandle := ⟨⟨0, 0⟩, 1⟩

/-- A surface configuration for 800 by 600 pixels. -/
def cfg800 : SurfaceConfiguration :=
  ⟨.renderAttachment, 0, 800, 600, .fifo, .auto⟩

/-- A surface configuration for 1024 by 768 pixels. -/
def cfg1024 : SurfaceConfiguration :=
  ⟨.renderAttachment, 0, 1024, 768, .fifo, .auto⟩

/-- An adapter reporting one supported surface format. -/
def adapter0 : Adapter := ⟨[0]⟩

/-- A GPU state configured at 800 by 600 whose window now reports 1024 by
768: exactly the situation after the user resizes the window. -/
def stateStale : GpuState := ⟨win1024, 0, 0, 0, cfg800, (800, 600)⟩

/-- The state produced by `GpuState.resize` on `stateStale`: the
configuration is updated to 1024 by 768 but the `size` field still reads
(800, 600). -/
def stateGrown : GpuState := ⟨win1024, 0, 0, 0, cfg1024, (800, 600)⟩

/-- A GPU state configured at 800 by 600 whose window still reports 800 by
600 (fully consistent). -/
def state800 : GpuState := ⟨win800, 0, 0, 0, cfg800, (800, 600)⟩

/-- A GPU state whose window now reports logical size 0 by 0. -/
def stateZeroWin : GpuState := ⟨winZero, 0, 0, 0, cfg800, (800, 600)⟩

/-- A handler state whose slot is populated and whose window reports 800
by 600. -/
def stReady : HelloState := ⟨⟨0, 0⟩, win800, some state800⟩

/-- A handler state whose slot is still empty (initialization pending). -/
def stEmpty : HelloState := ⟨⟨0, 0⟩, win1024, none⟩

/-- A handler state whose slot is populated but whose window reports
logical size 0 by 0. -/
def stZero : HelloState := ⟨⟨0, 0⟩, winZero, some state800⟩

/-! Evaluation lemmas for the fixtures. -/

/-- The physical size of `win1024` is 1024 by 768. -/
lemma size_px_win1024 : size_px win1024 = some (1024, 768) := by
  simp [size_px, dp_to_px_xy, win1024]

/-- The physical size of `win800` is 800 by 600. -/
lemma size_px_win800 : size_px win800 = some (800, 600) := by
  simp [size_px, dp_to_px_xy, win800]

/-- On `winZero` the assertion in `size_px` fails. -/
lemma size_px_winZero : size_px winZero = none := by
  simp [size_px, dp_to_px_xy, winZero]

/-- Evaluating `GpuState.resize` on `stateStale`: the surface is
reconfigured to 1024 by 768 but the `size` field is left at (800, 600). -/
lemma resize_stateStale_eval :
    GpuState.resize stateStale = some (.ok, stateGrown, [.configure cfg1024]) := by
  simp [GpuState.resize, stateStale, stateGrown, cfg800, cfg1024, size_px_win1024,
    Option.bind]

/-- Evaluating `GpuState.resize` on `stateGrown`: because the `size` field
still reads (800, 600), the surface is reconfigured again even though the
configuration already matches the window. -/
lemma resize_stateGrown_eval :
    GpuState.resize stateGrown = some (.ok, stateGrown, [.configure cfg1024]) := by
  simp [GpuState.resize, stateGrown, cfg1024, size_px_win1024, Option.bind]

/-- Evaluating `GpuState.resize` on the consistent state `state800`: the
recomputed size matches the `size` field, so the call is a no-op. -/
lemma resize_state800_eval :
    GpuState.resize state800 = some (.ok, state800, []) := by
  simp [GpuState.resize, state800, size_px_win800, Option.bind]

/-- Claim C1: the claim states that after any successful `GpuState::resize`
the `size` field equals `(configuration.width, configuration.height)` and
the physical size recomputed from the window.  The code violates this: on
`stateStale` (surface configured at 800 by 600, window now reporting 1024
by 768) `resize` returns `Ok`, updates the configuration to 1024 by 768,
yet leaves the `size` field at (800, 600), because `resize` in the source
never writes `self.size`. -/
theorem resize_leaves_size_field_stale :
    GpuState.resize stateStale = some (.ok, stateGrown, [.configure cfg1024])
    ∧ size_px stateGrown.handle = some (1024, 768)
    ∧ stateGrown.size ≠ (stateGrown.config.width, stateGrown.config.height) := by
  refine ⟨resize_stateStale_eval, size_px_win1024, ?_⟩
  simp [stateGrown, cfg1024]

/-- Claim C2: the claim states that two successive `resize` calls with no
intervening window-size change perform `surface.configure` at most once,
the second call being a no-op.  The code violates this: because `resize`
never updates the `size` field, the second call compares the fresh
physical size against the stale field, finds them different again, and
issues a second `surface.configure` with identical parameters. -/
theorem second_resize_reconfigures_again :
    GpuState.resize stateStale = some (.ok, stateGrown, [.configure cfg1024])
    ∧ GpuState.resize stateGrown = some (.ok, stateGrown, [.configure cfg1024]) :=
  ⟨resize_stateStale_eval, resize_stateGrown_eval⟩

/-- Claim C3, counterexample: the claim states that resize, paint and
mouse-down callbacks delivered while the slot holds `None` complete
without error or panic.  In the source each of them calls `unwrap` on the
empty slot (gpu.rs line 42 and line 144) and panics, modelled here by the
result `none`; none of them completes as a silent no-op. -/
theorem callbacks_on_empty_slot_abort :
    HelloState.sizeCallback stEmpty ⟨500, 400⟩ = none
    ∧ HelloState.paint stEmpty true = none
    ∧ HelloState.mouseDown stEmpty true = none := by
  refine ⟨rfl, ?_, ?_⟩ <;>
    simp [HelloState.paint, HelloState.mouseDown, HelloState.render, stEmpty,
      size_px_win1024, Option.bind]

/-- Claim C3 as amended: a resize, paint or mouse-down callback delivered
while the slot holds `None` panics on the `unwrap` of the empty slot (the
panic also prevents any state mutation), rather than completing as a
silent no-op. -/
theorem callbacks_on_empty_slot_hit_unwrap (st : HelloState) (newSize : Size)
    (texOk : Bool) (h : st.gpu_state = none) :
    HelloState.sizeCallback st newSize = none
    ∧ HelloState.paint st texOk = none
    ∧ HelloState.mouseDown st texOk = none := by
  unfold HelloState.sizeCallback HelloState.paint HelloState.mouseDown HelloState.render
  rw [h]
  refine ⟨rfl, ?_, ?_⟩ <;> cases size_px st.handle <;> simp [Option.bind]

/-- Witness for the amended claim C3, at a concrete empty-slot state. -/
theorem callbacks_on_empty_slot_hit_unwrap_witness :
    HelloState.sizeCallback stEmpty ⟨300, 200⟩ = none
    ∧ HelloState.paint stEmpty false = none
    ∧ HelloState.mouseDown stEmpty false = none :=
  callbacks_on_empty_slot_hit_unwrap stEmpty ⟨300, 200⟩ false rfl

/-- Claim C4, counterexample: the claim states that every surface-level
failure is caught at the `WinHandler` boundary and downgraded to a logged
recoverable condition.  In the source a failed
`surface.get_current_texture()` is met by `unwrap` (gpu.rs line 145): the
paint callback panics, modelled here by the result `none`, with a
populated slot and a valid window size. -/
theorem acquisition_failure_escapes_paint :
    stReady.gpu_state = some state800 ∧ HelloState.paint stReady false = none := by
  refine ⟨rfl, ?_⟩
  simp [HelloState.paint, HelloState.render, stReady, size_px_win800, Option.bind]

/-- Claim C4 as amended: surface-level failures (an empty slot, or a failed
texture acquisition) are not caught at the `WinHandler` boundary; the
paint and mouse-down callbacks panic on the corresponding `unwrap` and the
failure propagates out of the callback. -/
theorem surface_failures_escape_callbacks (st : HelloState) (texOk : Bool)
    (h : st.gpu_state = none ∨ texOk = false) :
    HelloState.paint st texOk = none ∧ HelloState.mouseDown st texOk = none := by
  unfold HelloState.paint HelloState.mouseDown HelloState.render
  rcases h with h | h
  · rw [h]
    constructor <;> cases size_px st.handle <;> simp [Option.bind]
  · subst h
    constructor <;> cases size_px st.handle <;> cases st.gpu_state <;>
      simp [Option.bind]

/-- Witness for the amended claim C4, at a concrete ready state with a
failing texture acquisition. -/
theorem surface_failures_escape_callbacks_witness :
    HelloState.paint stReady false = none
    ∧ HelloState.mouseDown stReady false = none :=
  surface_failures_escape_callbacks stReady false (Or.inr rfl)

/-- Claim C5, counterexample: the claim states that a non-positive
physical size makes `new` return the error value `InvalidGeometry` and
`resize` return the error value `ResizeFailed`, neither panicking.  In the
source `size_px` asserts both dimensions positive (gpu.rs line 306), so on
a window of logical size 0 by 0 both `new` and `resize` panic, modelled
here by the result `none`; no error value is ever produced. -/
theorem zero_size_aborts_without_error_value :
    size_px winZero = none
    ∧ GpuState.new winZero adapter0 0 0 0 = none
    ∧ GpuState.resize stateZeroWin = none := by
  refine ⟨size_px_winZero, ?_, ?_⟩
  · simp [GpuState.new, size_px_winZero, Option.bind]
  · simp [GpuState.resize, stateZeroWin, size_px_winZero, Option.bind]

/-- Claim C5 as amended: if either physical dimension computed from the
window is non-positive, the `assert!` inside `size_px` fails, so both
`GpuState::new` and `GpuState::resize` panic (modelled by `none`) instead
of returning an error value; the surface keeps its prior configuration
only in the sense that the panic prevents any further code from running. -/
theorem nonpositive_size_hits_assert (handle : WindowHandle) (adapter : Adapter)
    (sur dev que : Nat) (s : GpuState)
    (h : (dp_to_px_xy handle.scale handle.logicalSize.width handle.logicalSize.height).1 ≤ 0
       ∨ (dp_to_px_xy handle.scale handle.logicalSize.width handle.logicalSize.height).2 ≤ 0) :
    size_px handle = none
    ∧ GpuState.new handle adapter sur dev que = none
    ∧ (s.handle = handle → GpuState.resize s = none) := by
  have hnone : size_px handle = none := by
    unfold size_px
    rcases h with h | h
    · simp [Int.toNat_of_nonpos h]
    · simp [Int.toNat_of_nonpos h]
  refine ⟨hnone, ?_, fun hh => ?_⟩
  · simp [GpuState.new, hnone, Option.bind]
  · simp [GpuState.resize, hh, hnone, Option.bind]

/-- Witness for the amended claim C5, at a window of logical size 0 by 0. -/
theorem nonpositive_size_hits_assert_witness :
    (dp_to_px_xy winZero.scale winZero.logicalSize.width winZero.logicalSize.height).1 ≤ 0
    ∧ (size_px winZero = none
      ∧ GpuState.new winZero adapter0 1 2 3 = none
      ∧ (stateZeroWin.handle = winZero → GpuState.resize stateZeroWin = none)) :=
  ⟨by simp [dp_to_px_xy, winZero],
   nonpositive_size_hits_assert winZero adapter0 1 2 3 stateZeroWin
     (Or.inl (by simp [dp_to_px_xy, winZero]))⟩

/-- Claim C6: whenever the physical size recomputed from the window equals
the `size` field, `GpuState::resize` returns `Ok(())` immediately, performs
no driver call (empty trace, in particular no `surface.configure`), and
returns the state with every field (`handle`, `surface`, `device`,
`queue`, `config`, `size`) unchanged. -/
theorem resize_noop_when_size_matches (s : GpuState) (w h : Nat)
    (hpx : size_px s.handle = some (w, h)) (hsz : s.size = (w, h)) :
    GpuState.resize s = some (.ok, s, []) := by
  unfold GpuState.resize
  rw [hpx]
  simp [Option.bind, hsz]

/-- Witness for claim C6, at the consistent fixture `state800`. -/
theorem resize_noop_when_size_matches_witness :
    size_px state800.handle = some (800, 600)
    ∧ state800.size = (800, 600)
    ∧ GpuState.resize state800 = some (.ok, state800, []) :=
  ⟨size_px_win800, rfl,
   resize_noop_when_size_matches state800 800 600 size_px_win800 rfl⟩

/-- Claim C7: a successful `HelloState::render` (valid window size,
populated slot, texture acquired) produces exactly the driver-call
sequence texture acquisition, view creation, one render pass whose color
attachment uses a clear load operation with the fixed color
(0.1, 0.2, 0.3, 1.0) and a preserving store operation, then queue
submission, then presentation — submission strictly before presentation,
and exactly one render pass in the whole trace. -/
theorem render_single_clear_pass_then_present (st : HelloState)
    (px : Nat × Nat) (g : GpuState)
    (hpx : size_px st.handle = some px) (hg : st.gpu_state = some g) :
    HelloState.render st true
      = some (st, [.getCurrentTexture, .createView,
          .beginRenderPass (.clear (1/10) (2/10) (3/10) 1) true,
          .submit, .present])
    ∧ List.countP (fun op => match op with
          | GpuOp.beginRenderPass _ _ => true
          | _ => false)
        [GpuOp.getCurrentTexture, .createView,
          .beginRenderPass (.clear (1/10) (2/10) (3/10) 1) true,
          .submit, .present] = 1 := by
  constructor
  · unfold HelloState.render
    rw [hpx, hg]
    rfl
  · rfl

/-- Witness for claim C7, at the ready fixture `stReady`. -/
theorem render_single_clear_pass_then_present_witness :
    HelloState.render stReady true
      = some (stReady, [.getCurrentTexture, .createView,
          .beginRenderPass (.clear (1/10) (2/10) (3/10) 1) true,
          .submit, .present])
    ∧ List.countP (fun op => match op with
          | GpuOp.beginRenderPass _ _ => true
          | _ => false)
        [GpuOp.getCurrentTexture, .createView,
          .beginRenderPass (.clear (1/10) (2/10) (3/10) 1) true,
          .submit, .present] = 1 :=
  render_single_clear_pass_then_present stReady (800, 600) state800
    size_px_win800 rfl

/-- Claim C8: `GpuState::new` configures the surface with the first
format the adapter reports as supported (index 0 of the list), with
rendering-attachment usage and the FIFO presentation mode; the full
resulting state and the single configure call are characterized. -/
theorem new_selects_first_format_fifo_render_attachment
    (handle : WindowHandle) (adapter : Adapter) (fmt : TextureFormat)
    (rest : List TextureFormat) (sur dev que w h : Nat)
    (hpx : size_px handle = some (w, h))
    (hfmts : adapter.supportedFormats = fmt :: rest) :
    GpuState.new handle adapter sur dev que
      = some ({ handle := handle, surface := sur, device := dev, queue := que,
                config := ⟨.renderAttachment, fmt, w, h, .fifo, .auto⟩,
                size := (w, h) },
              [.configure ⟨.renderAttachment, fmt, w, h, .fifo, .auto⟩]) := by
  unfold GpuState.new
  rw [hpx, hfmts]
  rfl

/-- Witness for claim C8, at the 800 by 600 window and a one-format
adapter. -/
theorem new_selects_first_format_fifo_render_attachment_witness :
    GpuState.new win800 adapter0 7 8 9
      = some ({ handle := win800, surface := 7, device := 8, queue := 9,
                config := ⟨.renderAttachment, 0, 800, 600, .fifo, .auto⟩,
                size := (800, 600) },
              [.configure ⟨.renderAttachment, 0, 800, 600, .fifo, .auto⟩]) :=
  new_selects_first_format_fifo_render_attachment win800 adapter0 0 [] 7 8 9
    800 600 size_px_win800 rfl

/-- Claim C9: whenever `GpuState::resize` returns a value (does not
panic), that value carries `Ok(())`: no code path of `resize` builds an
error, so the `ResizeFailed` outcome of the spec is never produced as a
returned error value. -/
theorem resize_result_always_ok (s : GpuState)
    (out : RustResult × GpuState × List GpuOp)
    (h : GpuState.resize s = some out) : out.1 = .ok := by
  unfold GpuState.resize at h
  cases hp : size_px s.handle with
  | none =>
    rw [hp, Option.none_bind] at h
    cases h
  | some wh =>
    rw [hp, Option.some_bind] at h
    split at h
    · injection h with h2
      rw [← h2]
    · injection h with h2
      rw [← h2]

/-- Witness for claim C9, at the consistent fixture `state800`. -/
theorem resize_result_always_ok_witness :
    (RustResult.ok, state800, ([] : List GpuOp)).1 = RustResult.ok :=
  resize_result_always_ok state800 (.ok, state800, []) resize_state800_eval

/-- Claim C10: `HelloState::render` recomputes the physical size through
`size_px` before touching anything else (even though the computed size is
unused by the rest of the body), so a paint or mouse-down delivered while
the physical size of the window is zero panics on the failed `assert!`
(modelled by `none`) instead of skipping the frame — whatever the slot
holds and whether or not the texture acquisition would succeed. -/
theorem zero_size_render_hits_assert (st : HelloState) (texOk : Bool)
    (h : size_px st.handle = none) :
    HelloState.paint st texOk = none ∧ HelloState.mouseDown st texOk = none := by
  unfold HelloState.paint HelloState.mouseDown HelloState.render
  rw [h]
  exact ⟨rfl, rfl⟩

/-- Witness for claim C10, at a populated slot with a zero-size window:
the panic happens even though everything needed to draw is available. -/
theorem zero_size_render_hits_assert_witness :
    HelloState.paint stZero true = none
    ∧ HelloState.mouseDown stZero true = none :=
  zero_size_render_hits_assert stZero true size_px_winZero
